import Mathlib

/-!
# Verification of recurly-js cross-context messaging and field-lifecycle core

A shallow embedding of the tokenization dispatch, validation, popup-frame
lifecycle, and parent readiness state machine of recurly-js, with theorems
settling the specification claims.

Sources embedded:
* `src/lib/recurly/token.js` — `tokenDispatcher`, `token`, `validate`
* `src/unnamed/part_001` — the `Recurly` class (`configure`, `parent`,
  `ready`, `destroy`, `readyState`)
* `src/unnamed/part_003` — the `Frame` class (popup transaction lifecycle)

JavaScript conventions used by the embedding: strings model field values,
with the empty string standing for both `undefined` and `''` (the falsy
cases of the code's truthiness tests); the third-party `component-emitter`
`once` registration is modelled as a removable one-shot listener entry.
-/

namespace RecurlyJS

/-- Errors produced by the library (`errors(...)` factory) plus DOM and
hosted-field errors, as far as the claims need to distinguish them. -/
inductive RErr where
  | notConfigured
  | missingCallback
  | validation (fields : List String)
  | hostedFieldSetup (n : Nat)
  | apiError (n : Nat)
deriving DecidableEq, Repr

/-! ## Token validation (`src/lib/recurly/token.js`, `validate`) -/

/-- `FIELDS` from token.js: the customer-data fields sent to the API. -/
def FIELDS : List String :=
  [ "first_name", "last_name", "address1", "address2", "company", "country",
    "city", "state", "postal_code", "phone", "vat_number",
    "fraud_session_id", "token" ]

/-- The out-of-scope field validators (`this.validate.cardNumber` /
`.expiry` / `.cvv`), taken as abstract boolean collaborators exactly as
token.js consumes them. -/
structure Validators where
  cardNumber : String → Bool
  expiry : String → String → Bool
  cvv : String → Bool

/-- Normalized customer data (`customerData.values` after `normalize`).
The empty string models an absent/falsy value. `extra` holds the remaining
normalized fields, looked up by name. -/
structure CustomerData where
  number : String
  month : String
  year : String
  cvv : String
  first_name : String
  last_name : String
  extra : String → String

/-- JavaScript property lookup `customerData[field]` on the normalized
value set. -/
def fieldValue (d : CustomerData) (f : String) : String :=
  if f = "number" then d.number
  else if f = "month" then d.month
  else if f = "year" then d.year
  else if f = "cvv" then d.cvv
  else if f = "first_name" then d.first_name
  else if f = "last_name" then d.last_name
  else d.extra f

/-- `validate(customerData)` from token.js: collects the names of invalid
fields in the order the code pushes them. The expiry check pushes both
`month` and `year`; the trailing loop re-checks every configured required
field against `FIELDS`. -/
def validate (v : Validators) (required : List String) (d : CustomerData) :
    List String :=
  (if v.cardNumber d.number then [] else ["number"])
    ++ (if v.expiry d.month d.year then [] else ["month", "year"])
    ++ (if d.first_name = "" then ["first_name"] else [])
    ++ (if d.last_name = "" then ["last_name"] else [])
    ++ (if (required.contains "cvv" || d.cvv ≠ "") && !(v.cvv d.cvv)
        then ["cvv"] else [])
    ++ required.filter (fun f => fieldValue d f = "" && FIELDS.contains f)

/-! ## Token dispatch (`tokenDispatcher` and `token` in token.js) -/

/-- Observable effects of a successful (non-throwing) dispatch: callback
invocations, HTTP requests issued, and bus messages sent. -/
structure Outcome where
  callbacks : List RErr
  requests : List String
  busSends : List String
deriving DecidableEq, Repr

/-- The instance state `tokenDispatcher` consults: `this.configured`,
`this.config.parent`, `this.hostedFields.errors`, the validator
collaborators and `this.config.required`. -/
structure DispatchCtx where
  configured : Bool
  parent : Bool
  hfErrors : List RErr
  validators : Validators
  required : List String

/-- The `token` function of token.js (after the dispatcher's synchronous
checks). Parent mode sends `token:init` over the bus (the correlation
protocol itself is modelled separately below); non-parent mode validates
locally and either reports a `validation` error through the callback or
issues the `/token` POST. -/
def token (ctx : DispatchCtx) (d : CustomerData) : Outcome :=
  if ctx.parent then
    { callbacks := [], requests := [], busSends := ["token:init"] }
  else
    let userErrors := validate ctx.validators ctx.required d
    if userErrors.isEmpty then
      { callbacks := [], requests := ["/token"], busSends := [] }
    else
      { callbacks := [RErr.validation userErrors], requests := [],
        busSends := [] }

/-- `tokenDispatcher` from token.js. A `.error` result models a synchronous
`throw`; by construction a thrown error produces no callback invocation,
matching the code, where `throw` precedes any callback use.
`elements` models `args[0] instanceof Elements`; `doneIsFn` models
`typeof done === 'function'`. -/
def tokenDispatcher (ctx : DispatchCtx) (elements : Bool) (doneIsFn : Bool)
    (d : CustomerData) : Except RErr Outcome :=
  if !ctx.configured then Except.error RErr.notConfigured
  else if !doneIsFn then Except.error RErr.missingCallback
  else
    match ctx.hfErrors, ctx.parent && !elements with
    | e :: _, true => Except.error e
    | _, _ => Except.ok (token ctx d)

theorem mem_ite_nil_left {c : Prop} [Decidable c] {l : List String}
    {f : String} : (f ∈ if c then [] else l) ↔ ¬c ∧ f ∈ l := by
  split <;> simp_all

theorem mem_ite_nil_right {c : Prop} [Decidable c] {l : List String}
    {f : String} : (f ∈ if c then l else []) ↔ c ∧ f ∈ l := by
  split <;> simp_all

set_option maxHeartbeats 2000000 in
/-- Field membership in `validate`'s result characterized by the offending
conditions of the source checks. -/
theorem mem_validate_iff (v : Validators) (required : List String)
    (d : CustomerData) (f : String) :
    f ∈ validate v required d ↔
      (f = "number" ∧ v.cardNumber d.number = false)
      ∨ ((f = "month" ∨ f = "year") ∧ v.expiry d.month d.year = false)
      ∨ (f = "first_name" ∧ d.first_name = "")
      ∨ (f = "last_name" ∧ d.last_name = "")
      ∨ (f = "cvv" ∧ (required.contains "cvv" = true ∨ d.cvv ≠ "")
          ∧ v.cvv d.cvv = false)
      ∨ (f ∈ required ∧ fieldValue d f = "" ∧ FIELDS.contains f = true) := by
  simp only [validate, List.mem_append, mem_ite_nil_left, mem_ite_nil_right,
    List.mem_filter, List.mem_cons, List.not_mem_nil, or_false,
    Bool.and_eq_true, Bool.or_eq_true, Bool.not_eq_true, Bool.not_eq_true',
    decide_eq_true_eq]
  tauto

/-! ### Concrete fixtures used by the witnesses -/

/-- A validator set rejecting every input. -/
def rejectAll : Validators :=
  { cardNumber := fun _ => false, expiry := fun _ _ => false,
    cvv := fun _ => false }

/-- Customer data with every field absent. -/
def emptyData : CustomerData :=
  { number := "", month := "", year := "", cvv := "", first_name := "",
    last_name := "", extra := fun _ => "" }

/-- An unconfigured instance. -/
def ctxUnconfigured : DispatchCtx :=
  { configured := false, parent := false, hfErrors := [],
    validators := rejectAll, required := [] }

/-- A configured non-parent instance requiring cvv. -/
def ctxNonParent : DispatchCtx :=
  { configured := true, parent := false, hfErrors := [],
    validators := rejectAll, required := ["cvv"] }

/-- A configured parent instance with two recorded hosted-field errors. -/
def ctxHFErr : DispatchCtx :=
  { configured := true, parent := true,
    hfErrors := [RErr.hostedFieldSetup 0, RErr.hostedFieldSetup 1],
    validators := rejectAll, required := [] }

/-! ### Claims about token dispatch -/

/-- C2: every tokenize invocation on an instance that has not completed its
initial configuration throws `not-configured` synchronously, and every
invocation whose completion argument is not a function throws
`missing-callback` synchronously; a thrown (`Except.error`) result carries
no callback delivery by construction. -/
theorem c2_sync_misuse_errors (ctx : DispatchCtx) (elements doneIsFn : Bool)
    (d : CustomerData) :
    (ctx.configured = false →
      tokenDispatcher ctx elements doneIsFn d
        = Except.error RErr.notConfigured)
    ∧ (ctx.configured = true → doneIsFn = false →
      tokenDispatcher ctx elements doneIsFn d
        = Except.error RErr.missingCallback) := by
  refine ⟨fun h => ?_, fun h1 h2 => ?_⟩ <;> simp [tokenDispatcher, *]

/-- Witness for C2 at concrete inputs. -/
theorem c2_sync_misuse_errors_witness :
    tokenDispatcher ctxUnconfigured false true emptyData
      = Except.error RErr.notConfigured
    ∧ tokenDispatcher ctxNonParent false false emptyData
      = Except.error RErr.missingCallback :=
  ⟨(c2_sync_misuse_errors ctxUnconfigured false true emptyData).1 rfl,
    (c2_sync_misuse_errors ctxNonParent false false emptyData).2 rfl rfl⟩

/-- C9: on a configured parent instance with no Elements argument and at
least one recorded hosted-field error, tokenize throws the first recorded
hosted-field error synchronously; the `Except.error` result carries no
callback delivery. The dispatcher never consults the readiness state. -/
theorem c9_parent_hosted_field_error_throws (ctx : DispatchCtx)
    (d : CustomerData) (e : RErr) (rest : List RErr)
    (hc : ctx.configured = true) (hp : ctx.parent = true)
    (he : ctx.hfErrors = e :: rest) :
    tokenDispatcher ctx false true d = Except.error e := by
  simp [tokenDispatcher, hc, hp, he]

/-- Witness for C9 at concrete inputs. -/
theorem c9_parent_hosted_field_error_throws_witness :
    tokenDispatcher ctxHFErr false true emptyData
      = Except.error (RErr.hostedFieldSetup 0) :=
  c9_parent_hosted_field_error_throws ctxHFErr emptyData
    (RErr.hostedFieldSetup 0) [RErr.hostedFieldSetup 1] rfl rfl rfl

/-- C3: on a configured non-parent instance whose inputs fail local
validation, the callback receives a `validation` error whose field list is
exactly the offending fields, and no `/token` request is issued. -/
theorem c3_nonparent_validation_no_request (ctx : DispatchCtx)
    (elements : Bool) (d : CustomerData)
    (hc : ctx.configured = true) (hp : ctx.parent = false)
    (hv : validate ctx.validators ctx.required d ≠ []) :
    tokenDispatcher ctx elements true d
      = Except.ok
          { callbacks :=
              [RErr.validation (validate ctx.validators ctx.required d)],
            requests := [], busSends := [] }
    ∧ ∀ f, f ∈ validate ctx.validators ctx.required d ↔
        (f = "number" ∧ ctx.validators.cardNumber d.number = false)
        ∨ ((f = "month" ∨ f = "year")
            ∧ ctx.validators.expiry d.month d.year = false)
        ∨ (f = "first_name" ∧ d.first_name = "")
        ∨ (f = "last_name" ∧ d.last_name = "")
        ∨ (f = "cvv" ∧ (ctx.required.contains "cvv" = true ∨ d.cvv ≠ "")
            ∧ ctx.validators.cvv d.cvv = false)
        ∨ (f ∈ ctx.required ∧ fieldValue d f = ""
            ∧ FIELDS.contains f = true) := by
  constructor
  · have hne : (validate ctx.validators ctx.required d).isEmpty = false := by
      cases h : validate ctx.validators ctx.required d
      · exact absurd h hv
      · rfl
    cases hhf : ctx.hfErrors <;>
      simp [tokenDispatcher, token, hc, hp, hne, hhf]
  · exact fun f => mem_validate_iff ctx.validators ctx.required d f

/-- Witness for C3 at concrete inputs: all validators reject and the names
are missing, so validation fails and the dispatch performs no request. -/
theorem c3_nonparent_validation_no_request_witness :
    validate ctxNonParent.validators ctxNonParent.required emptyData ≠ []
    ∧ tokenDispatcher ctxNonParent false true emptyData
      = Except.ok
          { callbacks :=
              [RErr.validation
                (validate ctxNonParent.validators ctxNonParent.required
                  emptyData)],
            requests := [], busSends := [] } :=
  ⟨by decide,
    (c3_nonparent_validation_no_request ctxNonParent false emptyData
      rfl rfl (by decide)).1⟩

/-- C10: the expiry check of `validate` pushes `month` and `year` as a
pair: each of the two names appears in the result exactly when the joint
month/year expiry check fails, independent of which input was at fault. -/
theorem c10_expiry_failure_flags_month_and_year (v : Validators)
    (required : List String) (d : CustomerData) :
    ("month" ∈ validate v required d ↔ v.expiry d.month d.year = false)
    ∧ ("year" ∈ validate v required d ↔ v.expiry d.month d.year = false) := by
  have hm := mem_validate_iff v required d "month"
  have hy := mem_validate_iff v required d "year"
  have hmf : "month" ∉ FIELDS := by decide
  have hyf : "year" ∉ FIELDS := by decide
  constructor
  · rw [hm]; simp [hmf]
  · rw [hy]; simp [hyf]

/-! ## TokenDispatch correlation protocol

The parent branch of `token` in token.js:

```js
const id = uuid();
this.once(`token:done:${id}`, msg => complete(msg.err, msg.token));
bus.send('token:init', { id, inputs });
```

`uuid()` is modelled as a fresh-id counter (the spec's CorrelationId is an
opaque unique token); `this.once` is `component-emitter`'s one-shot
registration: on `emit`, every matching listener is removed and then run
exactly once. Correlation ids are `Nat`, inputs are abstracted to `Nat`. -/

/-- A `token:done:<id>` reply: `msg.err` and `msg.token`. -/
structure ReplyMsg where
  err : Option RErr
  token : Option Nat
deriving DecidableEq, Repr

/-- Session state for the correlation protocol: the uuid source, the ids
with a live one-shot `token:done:<id>` listener, the `token:init` messages
sent over the bus, and the callback invocations (call id, reply). -/
structure TokenSession where
  nextId : Nat
  pending : List Nat
  sentInits : List (Nat × Nat)
  invoked : List (Nat × ReplyMsg)
deriving DecidableEq, Repr

/-- The parent branch of `token`: draw a fresh id, register the one-shot
`token:done:<id>` listener, send `token:init` with `{ id, inputs }`.
Returns the new state and the id drawn. -/
def tokenParent (inputs : Nat) (s : TokenSession) : TokenSession × Nat :=
  ({ nextId := s.nextId + 1,
     pending := s.pending ++ [s.nextId],
     sentInits := s.sentInits ++ [(s.nextId, inputs)],
     invoked := s.invoked }, s.nextId)

/-- Delivery of a `token:done:<id>` reply through the emitter: every live
one-shot listener for that id is removed and its callback invoked with the
message. -/
def deliverTokenDone (id : Nat) (m : ReplyMsg) (s : TokenSession) :
    TokenSession :=
  { s with
    pending := s.pending.filter (fun i => i ≠ id),
    invoked := s.invoked
      ++ (s.pending.filter (fun i => i = id)).map (fun i => (i, m)) }

/-- C1: a parent-mode tokenize call draws a correlation id never used
before (no live listener and no previously sent `token:init` carries it),
registers exactly one one-shot `token:done:<id>` listener, and sends
`token:init` with `{ id, inputs }`; the first reply tagged with that id
invokes the caller's callback exactly once, and a duplicate reply with the
same id does not invoke it again. -/
theorem c1_correlation_exactly_once (s : TokenSession) (inputs : Nat)
    (m m' : ReplyMsg)
    (hfresh : ∀ i ∈ s.pending, i < s.nextId)
    (hsent : ∀ p ∈ s.sentInits, p.1 < s.nextId) :
    (tokenParent inputs s).2 = s.nextId
    ∧ s.nextId ∉ s.pending
    ∧ (∀ p ∈ s.sentInits, p.1 ≠ s.nextId)
    ∧ (tokenParent inputs s).1.pending = s.pending ++ [s.nextId]
    ∧ (tokenParent inputs s).1.sentInits
        = s.sentInits ++ [(s.nextId, inputs)]
    ∧ (deliverTokenDone s.nextId m (tokenParent inputs s).1).invoked
        = s.invoked ++ [(s.nextId, m)]
    ∧ (deliverTokenDone s.nextId m'
        (deliverTokenDone s.nextId m (tokenParent inputs s).1)).invoked
        = s.invoked ++ [(s.nextId, m)] := by
  have hne : ∀ i ∈ s.pending, i ≠ s.nextId :=
    fun i hi => Nat.ne_of_lt (hfresh i hi)
  have hkeep : s.pending.filter (fun i => i ≠ s.nextId) = s.pending := by
    rw [List.filter_eq_self]
    intro a ha
    simpa using hne a ha
  have hdrop : s.pending.filter (fun i => i = s.nextId) = [] := by
    rw [List.filter_eq_nil_iff]
    intro a ha
    simpa using hne a ha
  refine ⟨rfl, fun h => absurd rfl (hne _ h), fun p hp => Nat.ne_of_lt (hsent p hp), rfl, rfl, ?_, ?_⟩
  · simp [deliverTokenDone, tokenParent, List.filter_append, hdrop]
  · simp [deliverTokenDone, tokenParent, List.filter_append, hdrop, hkeep]

/-- Witness for C1: a fresh session, one tokenize call, a reply and a
duplicate reply. -/
theorem c1_correlation_exactly_once_witness :
    (tokenParent 7 ⟨0, [], [], []⟩).2 = 0
    ∧ (0 : Nat) ∉ ([] : List Nat)
    ∧ (∀ p ∈ ([] : List (Nat × Nat)), p.1 ≠ 0)
    ∧ (tokenParent 7 ⟨0, [], [], []⟩).1.pending = [] ++ [0]
    ∧ (tokenParent 7 ⟨0, [], [], []⟩).1.sentInits = [] ++ [(0, 7)]
    ∧ (deliverTokenDone 0 ⟨none, some 1⟩
        (tokenParent 7 ⟨0, [], [], []⟩).1).invoked = [] ++ [(0, ⟨none, some 1⟩)]
    ∧ (deliverTokenDone 0 ⟨none, some 2⟩
        (deliverTokenDone 0 ⟨none, some 1⟩
          (tokenParent 7 ⟨0, [], [], []⟩).1)).invoked
        = [] ++ [(0, ⟨none, some 1⟩)] :=
  c1_correlation_exactly_once ⟨0, [], [], []⟩ 7 ⟨none, some 1⟩ ⟨none, some 2⟩
    (by simp) (by simp)

/-! ## FrameTransaction (`src/unnamed/part_003`, class `Frame`)

State fields track exactly what the class mutates: the emitter listener
set (`prepare` registers one-shot listeners for the completion event and
for `destroy`), `this.window` (`some closed` once `window.open` ran — the
code never sets it back to `undefined`), `this.relay` (set when the IE
relay iframe is created and never cleared), whether the relay iframe is
currently a child of `document.body`, and whether the close-polling
interval of `bindWindowCloseListener` is live. `Node.removeChild` throws
`NotFoundError` when its argument is not a child, which is how the DOM
behaves for `removeRelay` after the relay has already been removed. -/

/-- DOM exceptions observable in the model. -/
inductive DomErr where
  | notFound
deriving DecidableEq, Repr

/-- Events a frame emits to its owner. -/
inductive FrameEvt where
  | error (e : Nat)
  | done (payload : Nat)
  | close
deriving DecidableEq, Repr

/-- The one-shot completion event name (`recurly-frame-<id>`). -/
def completionEvent : String := "recurly-frame-1"

/-- A completion reply: `res.error` and the remaining payload. -/
structure FrameRes where
  error : Option Nat
  payload : Nat
deriving DecidableEq, Repr

structure FrameSt where
  listeners : List String
  window : Option Bool
  relayRef : Bool
  relayInDom : Bool
  tickActive : Bool
  emitted : List FrameEvt
deriving DecidableEq, Repr

namespace Frame

/-- `removeRelay()`: returns early when `this.relay` was never set,
otherwise calls `document.body.removeChild(this.relay)` — which throws
`NotFoundError` when the relay is no longer in the document, because the
code never clears `this.relay`. -/
def removeRelay (st : FrameSt) : Except DomErr FrameSt :=
  if st.relayRef then
    if st.relayInDom then Except.ok { st with relayInDom := false }
    else Except.error DomErr.notFound
  else Except.ok st

/-- The pure part of `destroy()`: `this.off()` clears all listeners and
`this.window.close()` marks the window closed if a window reference
exists. Neither `this.window` nor `this.relay` is cleared. -/
def cleanup (st : FrameSt) : FrameSt :=
  { st with listeners := [], window := st.window.map (fun _ => true) }

/-- `destroy()` from part_003: `off`, close the window if present, then
`removeRelay`. -/
def destroy (st : FrameSt) : Except DomErr FrameSt :=
  removeRelay (cleanup st)

/-- The terminal event chosen by the completion handler:
`if (res.error) emit('error', ...) else emit('done', res)`. -/
def terminalEvt (res : FrameRes) : FrameEvt :=
  match res.error with
  | some e => FrameEvt.error e
  | none => FrameEvt.done res.payload

/-- Delivery of the one-shot completion event registered in `prepare`:
if the listener is live, the emitter removes it, then the handler runs
`removeRelay()` and emits exactly one of `error`/`done`. -/
def deliverCompletion (res : FrameRes) (st : FrameSt) :
    Except DomErr FrameSt :=
  if st.listeners.contains completionEvent then
    let st1 :=
      { st with
        listeners := st.listeners.filter (fun e => e ≠ completionEvent) }
    match removeRelay st1 with
    | Except.error e => Except.error e
    | Except.ok st2 =>
        Except.ok { st2 with emitted := st2.emitted ++ [terminalEvt res] }
  else Except.ok st

/-- One tick of the fixed-interval (1000 ms) watcher installed by
`bindWindowCloseListener`: stop when the window reference is absent;
when the window's `closed` flag is set, stop the interval, emit `close`,
and run `destroy()`. -/
def pollStep (st : FrameSt) : Except DomErr FrameSt :=
  if st.tickActive = false then Except.ok st
  else
    match st.window with
    | none => Except.ok { st with tickActive := false }
    | some closed =>
        if closed then
          destroy { st with tickActive := false,
                            emitted := st.emitted ++ [FrameEvt.close] }
        else Except.ok st

/-- The spec's `Destroyed` terminal state, as observable cleanup effects:
no live listeners, the window (if any was opened) closed, the relay out of
the document. -/
def isDestroyed (st : FrameSt) : Bool :=
  st.listeners.isEmpty
    && (match st.window with | none => true | some closed => closed)
    && !st.relayInDom

end Frame

/-- The state after the constructor ran (`prepare` + `listen`): both
one-shot listeners are live; on the IE relay path the popup is not yet
open (it opens from `relay.onload`), otherwise `create()` has opened the
window and started the close watcher. -/
def frameInit (ie : Bool) : FrameSt :=
  if ie then
    { listeners := [completionEvent, "destroy"], window := none,
      relayRef := true, relayInDom := true, tickActive := false,
      emitted := [] }
  else
    { listeners := [completionEvent, "destroy"], window := some false,
      relayRef := false, relayInDom := false, tickActive := true,
      emitted := [] }

/-- `relay.onload → this.create()`: open the popup and start the watcher. -/
def relayLoaded (st : FrameSt) : FrameSt :=
  { st with window := some false, tickActive := true }

/-! ## Orchestrator destroy (`src/unnamed/part_001`, `Recurly.destroy`) -/

/-- Modelled from the spec: the Bus (bus.js is not under `src/`). Its
`destroy()` broadcasts a terminal `destroy` event then releases all
registrations; after `destroy()`, `send` becomes a no-op and `destroy` is
idempotent (spec §4.1). -/
structure BusM where
  alive : Bool
  delivered : List String
deriving DecidableEq, Repr

/-- Modelled from the spec: `Bus#send` delivers to current registrations
and is a no-op after `destroy()`. -/
def BusM.send (b : BusM) (e : String) : BusM :=
  if b.alive then { b with delivered := b.delivered ++ [e] } else b

/-- Modelled from the spec: `Bus#destroy` releases registrations; calling
it again has no further effect. -/
def BusM.stop (b : BusM) : BusM :=
  { b with alive := false }

/-- The fields `Recurly#destroy` touches: the emitter listener set
(`this.off()`), the bus, the fraud collaborator's active flag, and the
reporter (the one reference `destroy` deletes). -/
structure RecurlyDestroySt where
  listeners : List String
  bus : Option BusM
  fraudActive : Option Bool
  reporter : Option Bool
deriving DecidableEq, Repr

/-- `Recurly#destroy` from part_001: `off()`; if a bus exists,
`bus.send('destroy')` then `bus.destroy()`; if fraud exists,
`fraud.destroy()`; if the reporter exists, destroy and `delete` it. -/
def recurlyDestroy (st : RecurlyDestroySt) : RecurlyDestroySt :=
  { listeners := [],
    bus := st.bus.map (fun b => (b.send "destroy").stop),
    fraudActive := st.fraudActive.map (fun _ => false),
    reporter := none }

/-! ### Claims about destroy idempotence and the frame lifecycle -/

/-- C6 counterexample: a frame on the relay (IE) path, fully opened. The
first `destroy()` succeeds; the second one repeats
`document.body.removeChild(this.relay)` — `this.relay` was never cleared —
and raises `NotFoundError`, so `destroy()` is not exception-free the
second time. -/
theorem c6_destroy_idempotent_counterexample :
    (Frame.destroy (relayLoaded (frameInit true))).bind Frame.destroy
      = Except.error DomErr.notFound := rfl

/-- C6 amended: the orchestrator's `destroy` is idempotent, and a frame's
`destroy` is idempotent (no extra effect, no exception) whenever no relay
element was created; but for a frame that created a relay, a second
`destroy` after a completed first one throws `NotFoundError`, because the
relay reference is never cleared and the relay element is removed again. -/
theorem c6_destroy_idempotent_amended (r : RecurlyDestroySt)
    (st : FrameSt) (hnr : st.relayRef = false)
    (stIE : FrameSt) (hr : stIE.relayRef = true)
    (hd : stIE.relayInDom = true) :
    recurlyDestroy (recurlyDestroy r) = recurlyDestroy r
    ∧ Frame.destroy st = Except.ok (Frame.cleanup st)
    ∧ Frame.destroy (Frame.cleanup st) = Except.ok (Frame.cleanup st)
    ∧ (Frame.destroy stIE).bind Frame.destroy
        = Except.error DomErr.notFound := by
  refine ⟨?_, ?_, ?_, ?_⟩
  · have hbus : ∀ b : BusM, ((((b.send "destroy").stop).send "destroy").stop)
        = (b.send "destroy").stop := by
      intro b
      simp [BusM.send, BusM.stop]
    cases hb : r.bus <;>
      simp [recurlyDestroy, hb, hbus]
  · simp [Frame.destroy, Frame.removeRelay, Frame.cleanup, hnr]
  · simp [Frame.destroy, Frame.removeRelay, Frame.cleanup, hnr,
      Option.map_map, Function.comp]
  · simp [Frame.destroy, Frame.removeRelay, Frame.cleanup, hr, hd,
      Except.bind]

/-- Witness for the amended C6 at concrete inputs. -/
theorem c6_destroy_idempotent_amended_witness :
    recurlyDestroy (recurlyDestroy
        ⟨["ready"], some ⟨true, []⟩, some true, some true⟩)
      = recurlyDestroy ⟨["ready"], some ⟨true, []⟩, some true, some true⟩
    ∧ Frame.destroy (frameInit false)
        = Except.ok (Frame.cleanup (frameInit false))
    ∧ Frame.destroy (Frame.cleanup (frameInit false))
        = Except.ok (Frame.cleanup (frameInit false))
    ∧ (Frame.destroy (relayLoaded (frameInit true))).bind Frame.destroy
        = Except.error DomErr.notFound :=
  c6_destroy_idempotent_amended
    ⟨["ready"], some ⟨true, []⟩, some true, some true⟩
    (frameInit false) rfl (relayLoaded (frameInit true)) rfl rfl

/-- The state the completion handler leaves behind: the one-shot listener
consumed, the relay out of the document, one terminal event appended —
and nothing else touched. -/
def Frame.completionPost (res : FrameRes) (st : FrameSt) : FrameSt :=
  { st with
    listeners := st.listeners.filter (fun e => e ≠ completionEvent),
    relayInDom := false,
    emitted := st.emitted ++ [Frame.terminalEvt res] }

/-- C7 counterexample: a frame on the direct (non-IE) path receives a
successful completion; the terminal `done` event is emitted, but the
resulting state is not `Destroyed` — the `destroy` listener is still live
and the popup window is still open, since the handler never calls
`destroy()`. -/
theorem c7_completion_destroys_counterexample :
    (Frame.deliverCompletion ⟨none, 5⟩ (frameInit false)).map
        (fun st => st.emitted) = Except.ok [FrameEvt.done 5]
    ∧ (Frame.deliverCompletion ⟨none, 5⟩ (frameInit false)).map
        Frame.isDestroyed = Except.ok false := ⟨rfl, rfl⟩

/-- C7 amended: when the one-shot completion event fires, the transaction
emits exactly one terminal event to its owner — `error` if the payload
carries an error, otherwise `done` — removes the relay element if one was
created, and consumes the listener so a duplicate completion is a no-op;
but it does not transition to `Destroyed`: the window is left untouched
and the `destroy` listener stays live (teardown happens only on a
`destroy` broadcast or on window-closure detection). -/
theorem c7_completion_terminal_event (st : FrameSt) (res res' : FrameRes)
    (hl : st.listeners.contains completionEvent = true)
    (hrd : st.relayInDom = st.relayRef) :
    Frame.deliverCompletion res st
      = Except.ok (Frame.completionPost res st)
    ∧ (Frame.completionPost res st).emitted
        = st.emitted ++ [Frame.terminalEvt res]
    ∧ (res.error = none →
        Frame.terminalEvt res = FrameEvt.done res.payload)
    ∧ (∀ e, res.error = some e → Frame.terminalEvt res = FrameEvt.error e)
    ∧ (Frame.completionPost res st).relayInDom = false
    ∧ (Frame.completionPost res st).window = st.window
    ∧ ("destroy" ∈ st.listeners →
        "destroy" ∈ (Frame.completionPost res st).listeners)
    ∧ Frame.deliverCompletion res' (Frame.completionPost res st)
        = Except.ok (Frame.completionPost res st) := by
  have hgone : ((st.listeners.filter
      (fun e => e ≠ completionEvent)).contains completionEvent) = false := by
    simp [List.mem_filter]
  have hlm : completionEvent ∈ st.listeners := by simpa using hl
  refine ⟨?_, rfl, ?_, ?_, rfl, rfl, ?_, ?_⟩
  · cases hrf : st.relayRef <;>
      simp [Frame.deliverCompletion, Frame.removeRelay,
        Frame.completionPost, hl, hlm, hrf, hrd ▸ hrf]
  · intro h; simp [Frame.terminalEvt, h]
  · intro e h; simp [Frame.terminalEvt, h]
  · intro h
    simp [Frame.completionPost, List.mem_filter, h, completionEvent]
  · simp [Frame.deliverCompletion, Frame.completionPost, hgone]

/-- Witness for the amended C7 at concrete inputs. -/
theorem c7_completion_terminal_event_witness :
    Frame.deliverCompletion ⟨none, 5⟩ (frameInit false)
      = Except.ok (Frame.completionPost ⟨none, 5⟩ (frameInit false))
    ∧ (Frame.completionPost ⟨none, 5⟩ (frameInit false)).emitted
        = (frameInit false).emitted ++ [Frame.terminalEvt ⟨none, 5⟩]
    ∧ ((⟨none, 5⟩ : FrameRes).error = none →
        Frame.terminalEvt ⟨none, 5⟩ = FrameEvt.done 5)
    ∧ (∀ e, (⟨none, 5⟩ : FrameRes).error = some e →
        Frame.terminalEvt ⟨none, 5⟩ = FrameEvt.error e)
    ∧ (Frame.completionPost ⟨none, 5⟩ (frameInit false)).relayInDom = false
    ∧ (Frame.completionPost ⟨none, 5⟩ (frameInit false)).window
        = (frameInit false).window
    ∧ ("destroy" ∈ (frameInit false).listeners →
        "destroy" ∈ (Frame.completionPost ⟨none, 5⟩
          (frameInit false)).listeners)
    ∧ Frame.deliverCompletion ⟨some 3, 0⟩
          (Frame.completionPost ⟨none, 5⟩ (frameInit false))
        = Except.ok (Frame.completionPost ⟨none, 5⟩ (frameInit false)) :=
  c7_completion_terminal_event (frameInit false) ⟨none, 5⟩ ⟨some 3, 0⟩
    rfl rfl

/-- The state after the watcher detects the closed popup: interval
stopped, one `close` emitted, then `destroy()` ran — but `this.window`
still holds the (closed) window. -/
def Frame.closePost (st : FrameSt) : FrameSt :=
  { st with
    listeners := [],
    window := st.window.map (fun _ => true),
    relayInDom := false,
    tickActive := false,
    emitted := st.emitted ++ [FrameEvt.close] }

/-- A direct-path frame whose popup the user closed manually. -/
def c8Frame : FrameSt :=
  { listeners := [completionEvent, "destroy"], window := some true,
    relayRef := false, relayInDom := false, tickActive := true,
    emitted := [] }

/-- C8 counterexample: the watcher detects the closed popup and emits one
`close`, but the window reference is not cleared — `this.window` still
holds the closed window afterwards. -/
theorem c8_close_clears_window_counterexample :
    (Frame.pollStep c8Frame).map (fun st => st.emitted)
      = Except.ok [FrameEvt.close]
    ∧ (Frame.pollStep c8Frame).map (fun st => st.window)
      = Except.ok (some true) := ⟨rfl, rfl⟩

/-- C8 amended: when the fixed-interval (1000 ms) watcher sees the closed
flag, exactly one `close` fires, the interval stops (so `close` is never
emitted again), and the transaction is destroyed — but the window
reference field is retained, still pointing at the closed window, rather
than being cleared. -/
theorem c8_manual_close_once (st : FrameSt)
    (ht : st.tickActive = true) (hw : st.window = some true)
    (hrd : st.relayInDom = st.relayRef) :
    Frame.pollStep st = Except.ok (Frame.closePost st)
    ∧ (Frame.closePost st).emitted = st.emitted ++ [FrameEvt.close]
    ∧ Frame.isDestroyed (Frame.closePost st) = true
    ∧ (Frame.closePost st).tickActive = false
    ∧ Frame.pollStep (Frame.closePost st) = Except.ok (Frame.closePost st)
    ∧ (Frame.closePost st).window = some true := by
  refine ⟨?_, rfl, ?_, rfl, ?_, ?_⟩
  · cases hrf : st.relayRef <;>
      simp [Frame.pollStep, Frame.destroy, Frame.cleanup,
        Frame.removeRelay, Frame.closePost, ht, hw, hrf, hrd ▸ hrf]
  · simp [Frame.isDestroyed, Frame.closePost, hw]
  · simp [Frame.pollStep, Frame.closePost]
  · simp [Frame.closePost, hw]

/-- Witness for the amended C8 at a concrete manually-closed popup. -/
theorem c8_manual_close_once_witness :
    Frame.pollStep c8Frame = Except.ok (Frame.closePost c8Frame)
    ∧ (Frame.closePost c8Frame).emitted = c8Frame.emitted ++ [FrameEvt.close]
    ∧ Frame.isDestroyed (Frame.closePost c8Frame) = true
    ∧ (Frame.closePost c8Frame).tickActive = false
    ∧ Frame.pollStep (Frame.closePost c8Frame)
        = Except.ok (Frame.closePost c8Frame)
    ∧ (Frame.closePost c8Frame).window = some true :=
  c8_manual_close_once c8Frame rfl rfl rfl

/-! ## Parent readiness lifecycle (`src/unnamed/part_001`)

`Recurly.configure` merges options and, in parent role, runs
`Recurly.parent`, which drives `readyState`
(0 unconfigured, 1 initializing, 2 fields ready, 3 ready without fields).
Config snapshots (`config.fields`) are abstracted to an opaque `Nat` id;
config merging is out of scope, so a configure step carries the merged
field snapshot directly. -/

/-- Modelled from the spec: the HostedFields instance (hosted-fields.js is
not under `src/`), reduced to what `Recurly.parent` consults — the field
configuration attached at creation, whether setup recorded errors, and a
torn-down flag set by `reset()`. -/
structure HF where
  attached : Nat
  errorsEmpty : Bool
  wasReset : Bool
deriving DecidableEq, Repr

/-- Modelled from the spec: `HostedFields#integrityCheck` compares the
currently attached field selector/style configuration against the newly
supplied one; a mismatch fails the check. -/
def HF.integrityCheck (hf : HF) (fields : Nat) : Bool :=
  hf.attached == fields

/-- Modelled from the spec: `HostedFields#reset` tears the current field
set down (stop listening, leave the bus). -/
def HF.reset (hf : HF) : HF :=
  { hf with wasReset := true }

/-- The `Recurly` instance state the lifecycle claims consult. `busGen`
counts `new Bus` creations, `busMsgs` logs every `bus.send`;
`hfReadyOnce` counts live `once('hostedFields:ready')` registrations;
`readyEmits` counts public `ready` emissions. -/
structure RecSt where
  configured : Bool
  readyState : Nat
  fields : Nat
  parentFlag : Bool
  fraud : Bool
  busGen : Nat
  busMsgs : List String
  hostedFields : Option HF
  hfReadyOnce : Nat
  readyEmits : Nat
deriving DecidableEq, Repr

/-- The constructor's state: defaults with `parent: true`, `readyState 0`,
not yet configured. -/
def initialRecurly : RecSt :=
  { configured := false, readyState := 0, fields := 0, parentFlag := true,
    fraud := false, busGen := 0, busMsgs := [], hostedFields := none,
    hfReadyOnce := 0, readyEmits := 0 }

/-- The `reset` flag computed at the top of `Recurly.parent`: a hosted
fields instance exists, `readyState > 1`, and the integrity check against
the (already merged) `config.fields` fails. -/
def resetCond (st : RecSt) : Bool :=
  match st.hostedFields with
  | some hf => decide (st.readyState > 1) && !(hf.integrityCheck st.fields)
  | none => false

/-- The reset branch of `Recurly.parent`: `readyState = 0` and
`hostedFields.reset()`. -/
def applyReset (st : RecSt) : RecSt :=
  if resetCond st then
    { st with readyState := 0, hostedFields := st.hostedFields.map HF.reset }
  else st

/-- `Recurly.parent` from part_001. After the optional reset: if already
initializing or initialized, only re-send `hostedFields:configure`;
otherwise create fraud/bus, create a HostedFields instance when none
exists or a reset occurred (`newErrsEmpty` abstracts whether that DOM
discovery recorded errors), then either start initializing (register the
one-shot `hostedFields:ready` listener, `readyState = 1`) or complete
without fields (`readyState = 3`, emit `ready`). -/
def parentStep (newErrsEmpty : Bool) (st : RecSt) : RecSt :=
  let reset := resetCond st
  let st1 := applyReset st
  if st1.readyState > 0 then
    { st1 with busMsgs := st1.busMsgs ++ ["hostedFields:configure"] }
  else
    let st2 := { st1 with fraud := true, busGen := st1.busGen + 1 }
    let st3 :=
      if st2.hostedFields.isNone || reset then
        { st2 with hostedFields := some ⟨st2.fields, newErrsEmpty, false⟩ }
      else st2
    match st3.hostedFields with
    | some hf =>
        if hf.errorsEmpty then
          { st3 with hfReadyOnce := st3.hfReadyOnce + 1, readyState := 1 }
        else
          { st3 with readyState := 3, readyEmits := st3.readyEmits + 1 }
    | none => st3

/-- The option merge of `Recurly.configure` restricted to the modelled
fields: install the merged field snapshot and the optional `parent`
override. -/
def mergeConfig (newFields : Nat) (parentOpt : Option Bool) (st : RecSt) :
    RecSt :=
  { st with fields := newFields, parentFlag := parentOpt.getD st.parentFlag }

/-- `Recurly.configure` from part_001: merge, run `parent()` when in
parent role, then mark the instance configured. -/
def configureStep (newFields : Nat) (parentOpt : Option Bool)
    (newErrsEmpty : Bool) (st : RecSt) : RecSt :=
  let st1 := mergeConfig newFields parentOpt st
  let st2 := if st1.parentFlag then parentStep newErrsEmpty st1 else st1
  if st2.configured then st2 else { st2 with configured := true }

/-- Arrival of `hostedFields:ready` on the emitter: every live one-shot
listener fires (each sets `readyState = 2` and emits `ready`), and all of
them are consumed. -/
def deliverHFReady (st : RecSt) : RecSt :=
  if st.hfReadyOnce > 0 then
    { st with hfReadyOnce := 0, readyState := 2,
              readyEmits := st.readyEmits + st.hfReadyOnce }
  else st

/-- `Recurly.destroy` as far as the lifecycle state goes: `off()` drops
the emitter listeners and a terminal `destroy` is sent when a bus exists;
`readyState` is not touched. -/
def destroyStep (st : RecSt) : RecSt :=
  { st with hfReadyOnce := 0,
            busMsgs := if st.busGen > 0
              then st.busMsgs ++ ["destroy"] else st.busMsgs }

/-- The operations of the public lifecycle surface that drive
`readyState`. `readyQuery` is `ready(done)`, which only reads the state. -/
inductive LStep where
  | configure (newFields : Nat) (parentOpt : Option Bool)
      (newErrsEmpty : Bool)
  | hfReady
  | readyQuery
  | destroy
deriving DecidableEq, Repr

def lstepFn : LStep → RecSt → RecSt
  | LStep.configure nf po ne, st => configureStep nf po ne st
  | LStep.hfReady, st => deliverHFReady st
  | LStep.readyQuery, st => st
  | LStep.destroy, st => destroyStep st

/-- Run a sequence of lifecycle operations from the constructor state. -/
def runL (steps : List LStep) : RecSt :=
  steps.foldl (fun st s => lstepFn s st) initialRecurly

/-- Whether a step takes the reset branch of `Recurly.parent`. -/
def resetTaken (s : LStep) (st : RecSt) : Bool :=
  match s with
  | LStep.configure nf po _ =>
      (mergeConfig nf po st).parentFlag && resetCond (mergeConfig nf po st)
  | _ => false

/-- A pending one-shot `hostedFields:ready` listener exists only while
initializing (`readyState = 1`). -/
def InvL (st : RecSt) : Prop :=
  st.hfReadyOnce > 0 → st.readyState = 1

theorem resetCond_readyState {st : RecSt} (h : resetCond st = true) :
    st.readyState > 1 := by
  unfold resetCond at h
  cases hhf : st.hostedFields <;> rw [hhf] at h
  · simp at h
  · rw [Bool.and_eq_true, decide_eq_true_eq] at h
    exact h.1

theorem parentStep_invL (ne : Bool) (st : RecSt) (h : InvL st) :
    InvL (parentStep ne st) := by
  by_cases hrc : resetCond st = true
  · have hrs := resetCond_readyState hrc
    have hro : st.hfReadyOnce = 0 := by
      by_contra hne
      have := h (Nat.pos_of_ne_zero hne)
      omega
    cases hhf : st.hostedFields with
    | none => simp [resetCond, hhf] at hrc
    | some hf =>
        cases ne <;>
          simp [parentStep, applyReset, resetCond, hhf, hrc, InvL, hro,
            HF.reset] <;>
          simp [resetCond, hhf] at hrc <;> simp [hrc, hrs]
  · have hrc' : resetCond st = false := by simpa using hrc
    by_cases hpos : st.readyState > 0
    · intro hgt
      have hgt' : st.hfReadyOnce > 0 := by
        simpa [parentStep, applyReset, hrc', hpos] using hgt
      simpa [parentStep, applyReset, hrc', hpos] using h hgt'
    · have hz : st.readyState = 0 := by omega
      have hro : st.hfReadyOnce = 0 := by
        by_contra hne
        have := h (Nat.pos_of_ne_zero hne)
        omega
      cases hhf : st.hostedFields with
      | none =>
          cases ne <;>
            simp [parentStep, applyReset, hrc', hz, hhf, InvL, hro]
      | some hf =>
          cases herr : hf.errorsEmpty <;>
            simp [parentStep, applyReset, hrc', hz, hhf, herr, InvL, hro]

theorem configureStep_invL (nf : Nat) (po : Option Bool) (ne : Bool)
    (st : RecSt) (h : InvL st) : InvL (configureStep nf po ne st) := by
  have hm : InvL (mergeConfig nf po st) := h
  unfold configureStep
  by_cases hp : (mergeConfig nf po st).parentFlag = true
  · have := parentStep_invL ne (mergeConfig nf po st) hm
    by_cases hcf : (parentStep ne (mergeConfig nf po st)).configured = true <;>
      simp [hp, hcf, InvL] at this ⊢ <;> exact this
  · have hp' : (mergeConfig nf po st).parentFlag = false := by simpa using hp
    by_cases hcf : (mergeConfig nf po st).configured = true <;>
      simp [hp', hcf, InvL] at hm ⊢ <;> exact hm

theorem lstepFn_invL (s : LStep) (st : RecSt) (h : InvL st) :
    InvL (lstepFn s st) := by
  cases s with
  | configure nf po ne => exact configureStep_invL nf po ne st h
  | hfReady =>
      by_cases hp : st.hfReadyOnce > 0
      · simp [lstepFn, deliverHFReady, hp, InvL]
      · simp only [lstepFn, deliverHFReady, if_neg hp]
        exact h
  | readyQuery => exact h
  | destroy => intro hgt; simp [lstepFn, destroyStep] at hgt

theorem invL_runL (steps : List LStep) : InvL (runL steps) := by
  suffices hgen : ∀ (l : List LStep) (st : RecSt), InvL st →
      InvL (l.foldl (fun st s => lstepFn s st) st) by
    exact hgen steps initialRecurly (by intro h; simp [initialRecurly] at h)
  intro l
  induction l with
  | nil => exact fun st h => h
  | cons s rest ih => exact fun st h => ih _ (lstepFn_invL s st h)

theorem parentStep_mono (ne : Bool) (st : RecSt)
    (hrc : resetCond st = false) :
    st.readyState ≤ (parentStep ne st).readyState := by
  by_cases hpos : st.readyState > 0
  · simp [parentStep, applyReset, hrc, hpos]
  · have hz : st.readyState = 0 := by omega
    rw [hz]
    exact Nat.zero_le _

theorem configureStep_readyState (nf : Nat) (po : Option Bool) (ne : Bool)
    (st : RecSt) :
    (configureStep nf po ne st).readyState =
      if (mergeConfig nf po st).parentFlag = true
      then (parentStep ne (mergeConfig nf po st)).readyState
      else st.readyState := by
  simp only [configureStep]
  by_cases hp : (mergeConfig nf po st).parentFlag = true
  · simp only [if_pos hp]
    by_cases hcf : (parentStep ne (mergeConfig nf po st)).configured = true
    · rw [if_pos hcf]
    · rw [if_neg hcf]
  · simp only [if_neg hp]
    by_cases hcf : (mergeConfig nf po st).configured = true
    · rw [if_pos hcf]
      simp [mergeConfig]
    · rw [if_neg hcf]
      simp [mergeConfig]

theorem configureStep_readyState_mono (nf : Nat) (po : Option Bool)
    (ne : Bool) (st : RecSt)
    (hnr : resetTaken (LStep.configure nf po ne) st = false) :
    st.readyState ≤ (configureStep nf po ne st).readyState := by
  rw [configureStep_readyState]
  by_cases hp : (mergeConfig nf po st).parentFlag = true
  · rw [if_pos hp]
    have hrc : resetCond (mergeConfig nf po st) = false := by
      simp only [resetTaken, hp, Bool.true_and] at hnr
      exact hnr
    have hmono := parentStep_mono ne (mergeConfig nf po st) hrc
    have hms : (mergeConfig nf po st).readyState = st.readyState := by
      simp [mergeConfig]
    rw [hms] at hmono
    exact hmono
  · rw [if_neg hp]

theorem lstepFn_readyState_mono (s : LStep) (st : RecSt) (h : InvL st)
    (hnr : resetTaken s st = false) :
    st.readyState ≤ (lstepFn s st).readyState := by
  cases s with
  | configure nf po ne => exact configureStep_readyState_mono nf po ne st hnr
  | hfReady =>
      by_cases hp : st.hfReadyOnce > 0
      · have := h hp
        simp [lstepFn, deliverHFReady, hp, this]
      · simp [lstepFn, deliverHFReady, hp]
  | readyQuery => exact Nat.le_refl _
  | destroy => simp [lstepFn, destroyStep]

/-- C5: across any sequence of configure/ready/field-lifecycle operations
run from the constructor state, `readyState` never decreases at a step
that does not take the integrity-mismatch reset branch; a step that does
take it passes through `Unconfigured (0)` (the reset phase sets the state
to 0, before re-initialization begins). -/
theorem c5_readyState_monotone_except_reset (pre : List LStep)
    (s : LStep) :
    (resetTaken s (runL pre) = false →
      (runL pre).readyState ≤ (lstepFn s (runL pre)).readyState)
    ∧ (∀ nf po ne, s = LStep.configure nf po ne →
        resetTaken s (runL pre) = true →
        (applyReset (mergeConfig nf po (runL pre))).readyState = 0) := by
  constructor
  · exact lstepFn_readyState_mono s (runL pre) (invL_runL pre)
  · intro nf po ne hs hr
    subst hs
    have hrc : resetCond (mergeConfig nf po (runL pre)) = true := by
      simp only [resetTaken, Bool.and_eq_true] at hr
      exact hr.2
    simp [applyReset, hrc]

/-- Witness for C5: a non-reset step (the `hostedFields:ready` arrival
after first configuration) keeps `readyState` nondecreasing, and a
reconfiguration with a different field snapshot takes the reset branch,
whose reset phase yields `readyState = 0`. -/
theorem c5_readyState_monotone_except_reset_witness :
    (runL [LStep.configure 0 none true]).readyState
      ≤ (lstepFn LStep.hfReady (runL [LStep.configure 0 none true])).readyState
    ∧ (applyReset (mergeConfig 1 none
        (runL [LStep.configure 0 none true, LStep.hfReady]))).readyState
      = 0 :=
  ⟨(c5_readyState_monotone_except_reset [LStep.configure 0 none true]
      LStep.hfReady).1 (by decide),
    (c5_readyState_monotone_except_reset
      [LStep.configure 0 none true, LStep.hfReady]
      (LStep.configure 1 none true)).2 1 none true rfl (by decide)⟩

/-- C4: reconfiguring an already-initialized parent instance (readyState
past `Initializing`, no pending ready listener). If the new field
configuration passes the integrity check, nothing changes except the
field snapshot and one `hostedFields:configure` bus message — no reset,
no re-initialization, no `ready` emission. If it fails, exactly one
reset-then-reinitialize cycle runs, whatever the recreated field set
reports: the reset phase drops `readyState` to 0 and tears the old field
set down, and then either the fresh HostedFields records no errors — the
step ends initializing (`readyState = 1`, one pending ready listener) and
the subsequent `hostedFields:ready` arrival completes it with exactly one
more public `ready` emission — or it records errors, and the step
completes at once as `ReadyWithoutFields` (`readyState = 3`) with exactly
one more public `ready` emission. -/
theorem c4_reconfigure_integrity_reset (st : RecSt) (hf : HF) (nf : Nat)
    (ne : Bool)
    (hp : st.parentFlag = true) (hhf : st.hostedFields = some hf)
    (hrs : st.readyState > 1) (hro : st.hfReadyOnce = 0)
    (hc : st.configured = true) :
    (hf.integrityCheck nf = true →
      configureStep nf none ne st
        = { st with fields := nf,
                    busMsgs := st.busMsgs ++ ["hostedFields:configure"] })
    ∧ (hf.integrityCheck nf = false →
      (applyReset (mergeConfig nf none st)).readyState = 0
      ∧ (applyReset (mergeConfig nf none st)).hostedFields
          = some (HF.reset hf)
      ∧ (ne = true →
          configureStep nf none ne st
            = { st with fields := nf, fraud := true,
                        busGen := st.busGen + 1,
                        hostedFields := some ⟨nf, true, false⟩,
                        hfReadyOnce := 1, readyState := 1 }
          ∧ deliverHFReady (configureStep nf none ne st)
            = { st with fields := nf, fraud := true,
                        busGen := st.busGen + 1,
                        hostedFields := some ⟨nf, true, false⟩,
                        hfReadyOnce := 0, readyState := 2,
                        readyEmits := st.readyEmits + 1 })
      ∧ (ne = false →
          configureStep nf none ne st
            = { st with fields := nf, fraud := true,
                        busGen := st.busGen + 1,
                        hostedFields := some ⟨nf, false, false⟩,
                        hfReadyOnce := 0, readyState := 3,
                        readyEmits := st.readyEmits + 1 })) := by
  obtain ⟨cfg, rs, flds, pf, fr, bg, bm, hfs, hfo, re⟩ := st
  simp only at hp hhf hrs hro hc
  subst hp hhf hro hc
  constructor
  · intro hic
    have hpos : 0 < rs := by omega
    simp [configureStep, mergeConfig, parentStep, applyReset, resetCond,
      hic, hpos]
  · intro hic
    refine ⟨?_, ?_, ?_, ?_⟩
    · simp [applyReset, mergeConfig, resetCond, hic, hrs]
    · simp [applyReset, mergeConfig, resetCond, HF.reset, hic, hrs]
    · intro hne
      subst hne
      constructor <;>
        simp [configureStep, mergeConfig, parentStep, applyReset, resetCond,
          deliverHFReady, HF.reset, hic, hrs]
    · intro hne
      subst hne
      simp [configureStep, mergeConfig, parentStep, applyReset, resetCond,
        HF.reset, hic, hrs]

/-- The concrete already-initialized parent state reached by one
configuration with field snapshot 0 followed by the fields-ready signal. -/
def recReady : RecSt := runL [LStep.configure 0 none true, LStep.hfReady]

/-- Witness for C4 at the concrete state `recReady`: reconfiguring with
the same snapshot (0) only re-sends `hostedFields:configure`;
reconfiguring with snapshot 1 resets and then either re-initializes
(fresh fields clean) with exactly one further `ready` on
`hostedFields:ready`, or completes as ReadyWithoutFields (fresh fields
record errors) with exactly one further `ready` at once. -/
theorem c4_reconfigure_integrity_reset_witness :
    (configureStep 0 none true recReady
      = { recReady with
          fields := 0,
          busMsgs := recReady.busMsgs ++ ["hostedFields:configure"] })
    ∧ ((applyReset (mergeConfig 1 none recReady)).readyState = 0
      ∧ (applyReset (mergeConfig 1 none recReady)).hostedFields
          = some (HF.reset ⟨0, true, false⟩)
      ∧ configureStep 1 none true recReady
          = { recReady with
              fields := 1, fraud := true,
              busGen := recReady.busGen + 1,
              hostedFields := some ⟨1, true, false⟩,
              hfReadyOnce := 1, readyState := 1 }
      ∧ deliverHFReady (configureStep 1 none true recReady)
          = { recReady with
              fields := 1, fraud := true,
              busGen := recReady.busGen + 1,
              hostedFields := some ⟨1, true, false⟩,
              hfReadyOnce := 0, readyState := 2,
              readyEmits := recReady.readyEmits + 1 })
    ∧ configureStep 1 none false recReady
        = { recReady with
            fields := 1, fraud := true,
            busGen := recReady.busGen + 1,
            hostedFields := some ⟨1, false, false⟩,
            hfReadyOnce := 0, readyState := 3,
            readyEmits := recReady.readyEmits + 1 } :=
  ⟨(c4_reconfigure_integrity_reset recReady ⟨0, true, false⟩ 0 true
      rfl rfl (by decide) rfl rfl).1 rfl,
    ⟨((c4_reconfigure_integrity_reset recReady ⟨0, true, false⟩ 1 true
        rfl rfl (by decide) rfl rfl).2 rfl).1,
      ((c4_reconfigure_integrity_reset recReady ⟨0, true, false⟩ 1 true
        rfl rfl (by decide) rfl rfl).2 rfl).2.1,
      (((c4_reconfigure_integrity_reset recReady ⟨0, true, false⟩ 1 true
        rfl rfl (by decide) rfl rfl).2 rfl).2.2.1 rfl).1,
      (((c4_reconfigure_integrity_reset recReady ⟨0, true, false⟩ 1 true
        rfl rfl (by decide) rfl rfl).2 rfl).2.2.1 rfl).2⟩,
    ((c4_reconfigure_integrity_reset recReady ⟨0, true, false⟩ 1 false
        rfl rfl (by decide) rfl rfl).2 rfl).2.2.2 rfl⟩

end RecurlyJS
